import Mathlib

/-!
Verification of the gym-to-Unity adapter
(`src/ml-agents-envs/mlagents_envs/gym_to_unity_wrapper.py`).

The adapter wraps a single-agent gym environment and exposes the Unity
`BaseEnv` interface.  Numeric values (observations, rewards, bounds,
normalization factors) are modelled as rationals; the numpy float32 and
int32 dtype coercions are modelled as the identity on rationals
resp. truncation toward zero, since no claim depends on rounding at
machine precision or on 32-bit overflow.  The underlying gym environment
is modelled as a deterministic transition system over an abstract state
type, carrying its declared action and observation spaces.
-/

/-- A gym space, as far as the wrapper inspects it: a (flat) `Box` with
elementwise lower and upper bounds, a `Discrete` space with a number of
categories, or anything else (which the wrapper rejects).  A flat `box`
models a gym `Box` of shape `(length,)`; the product of the shape
dimensions is then the length of the bound vectors. -/
inductive GymSpace where
  | box (low high : List ℚ)
  | discrete (n : ℕ)
  | other
deriving DecidableEq

/-- An action value handed to the underlying gym environment by the
wrapper: `self._g_action` holds either a Python `int` (discrete case) or
a numpy vector (continuous case). -/
inductive GAction where
  | int (i : ℤ)
  | arr (a : List ℚ)
deriving DecidableEq

/-- The underlying gym environment: declared spaces plus deterministic
`reset` and `step` dynamics over a state type `σ`.  `stepFn` returns
(new state, observation, reward, done, truncated) where `truncated`
models `info.get ("TimeLimit.truncated", False)`.  `step` receives the
wrapper's stored action, which is `none` when `self._g_action` is still
the Python `None` it was initialized to. -/
structure GymEnv (σ : Type) where
  action_space : GymSpace
  observation_space : GymSpace
  resetFn : σ → σ × List ℚ
  stepFn : σ → Option GAction → σ × List ℚ × ℚ × Bool × Bool

/-- The exceptions the wrapper can raise: `UnityActionException`,
`UnityObservationException`, and a failed Python `assert`. -/
inductive PyErr where
  | unityAction (msg : String)
  | unityObservation (msg : String)
  | assertionError
deriving DecidableEq

/-- Modelled from the spec: the action type of a behavior
(`ActionType` from `mlagents_envs.base_env`, which is not under `src/`):
continuous or discrete. -/
inductive ActionType where
  | continuous
  | discrete
deriving DecidableEq

/-- Modelled from the spec: `BehaviorSpec` from `mlagents_envs.base_env`
(not under `src/`) is an immutable descriptor holding the observation
shapes, the action type, and the action shape — the size of the
continuous vector (an integer), or the tuple of discrete branch sizes. -/
structure BehaviorSpec where
  observation_shapes : List (List ℕ)
  action_type : ActionType
  action_shape : ℕ ⊕ List ℕ
deriving DecidableEq

/-- Modelled from the spec: `is_action_continuous` tests the action
type. -/
def BehaviorSpec.is_action_continuous (s : BehaviorSpec) : Bool :=
  s.action_type = ActionType.continuous

/-- Modelled from the spec: `action_size` is the size of the continuous
vector in the continuous case, and the count of discrete categories in
the discrete case (the spec: where discrete, action_size equals
n_categories; the wrapper always stores a one-element tuple `(n,)`, so
the count is the sum of the tuple entries). -/
def BehaviorSpec.action_size (s : BehaviorSpec) : ℕ :=
  match s.action_shape with
  | Sum.inl k => k
  | Sum.inr l => l.sum

/-- Modelled from the spec: `DecisionSteps` from `mlagents_envs.base_env`
(not under `src/`): the batch of agents awaiting a decision, carrying per
agent an observation (grouped per sensor, with a leading agent
dimension), a reward, an agent id, and an optional action mask.  The
wrapper always passes `action_mask=None`. -/
structure DecisionSteps where
  obs : List (List (List ℚ))
  reward : List ℚ
  agent_id : List ℤ
  action_mask : Option Unit
deriving DecidableEq

/-- Modelled from the spec: the number of agents in the batch (Python
`len`). -/
def DecisionSteps.len (d : DecisionSteps) : ℕ := d.agent_id.length

/-- Modelled from the spec: `DecisionSteps.empty(spec)` builds a
well-formed batch with zero agents in every field. -/
def DecisionSteps.empty (spec : BehaviorSpec) : DecisionSteps :=
  { obs := spec.observation_shapes.map fun _ => []
    reward := []
    agent_id := []
    action_mask := none }

/-- Modelled from the spec: `TerminalSteps` from `mlagents_envs.base_env`
(not under `src/`): the batch of agents whose episode just ended,
carrying per agent an observation, a reward, an interrupted flag, and an
agent id. -/
structure TerminalSteps where
  obs : List (List (List ℚ))
  reward : List ℚ
  interrupted : List Bool
  agent_id : List ℤ
deriving DecidableEq

/-- Modelled from the spec: the number of agents in the batch. -/
def TerminalSteps.len (t : TerminalSteps) : ℕ := t.agent_id.length

/-- Modelled from the spec: `TerminalSteps.empty(spec)` builds a
well-formed batch with zero agents in every field. -/
def TerminalSteps.empty (spec : BehaviorSpec) : TerminalSteps :=
  { obs := spec.observation_shapes.map fun _ => []
    reward := []
    interrupted := []
    agent_id := [] }

/-- A numpy array as the wrapper consumes it: its shape, and its entries
flattened in row-major order. -/
structure NDArray where
  shape : List ℕ
  data : List ℚ
deriving DecidableEq

/-- Elementwise division, modelling numpy `/` on same-length vectors. -/
def arrDiv (a b : List ℚ) : List ℚ := List.zipWith (fun x y => x / y) a b

/-- Elementwise maximum, modelling `np.maximum`. -/
def arrMax (a b : List ℚ) : List ℚ := List.zipWith max a b

/-- The large sentinel threshold `1e38` above which a bound is treated
as unbounded. -/
def bigThreshold : ℚ := 10 ^ 38

/-- Set entries strictly above the threshold to 1, modelling
`ratio[ratio > 1e38] = 1`. -/
def clampRat (l : List ℚ) : List ℚ :=
  l.map fun x => if bigThreshold < x then 1 else x

/-- The normalization factors of a `Box` space: the clamped elementwise
maximum of the upper bound and the negated lower bound,
`np.maximum(high, -low)` with entries above `1e38` reset to 1. -/
def boundRat (low high : List ℚ) : List ℚ :=
  clampRat (arrMax high (low.map fun x => -x))

/-- Python `int()` applied to a numeric value: truncation toward zero.
This also models the value effect of `astype(np.int32)` for in-range
values. -/
def pyInt (q : ℚ) : ℤ :=
  if 0 ≤ q then Rat.floor q else Rat.ceil q

/-- Python `str` of a tuple of integers, as used in the shape-mismatch
error message: `(2,)` or `(1, 3)`. -/
def tupleStr (l : List ℕ) : String :=
  match l with
  | [] => "()"
  | [a] => "(" ++ toString a ++ ",)"
  | _ => "(" ++ String.intercalate ", " (l.map toString) ++ ")"

/-- The `UnityActionException` message raised by `set_actions` on a
shape mismatch, naming the behavior, the expected shape, and the
received shape. -/
def shapeMsg (behavior_name : String) (expected actual : List ℕ) : String :=
  "The behavior " ++ behavior_name ++ " needs an input of dimension " ++
    tupleStr expected ++ " but received input of dimension " ++ tupleStr actual

/-- The message raised by `set_action_for_agent` on a shape mismatch.
The source builds it with an f-string whose `\x7b0\x7d` ... `\x7b3\x7d`
placeholders are evaluated by the f-string itself as the literals 0..3,
so the later `.format(...)` call finds no placeholders and the message
is this constant. -/
def agentShapeMsg : String :=
  "The Agent 0 with BehaviorName 1 needs an input of dimension " ++
    "2 but received input of dimension 3"

/-- The default behavior name `_DEFAULT_BEHAVIOR_NAME`. -/
def DEFAULT_BEHAVIOR_NAME : String := "gym_behavior_name"

/-- The fixed agent id `_AGENT_ID`. -/
def AGENT_ID : ℤ := 1

/-- The adapter state: the owned gym environment and its current state,
the configuration computed at construction, and the mutable fields
`_first_message`, `_g_action` and `_current_steps`. -/
structure GymToUnityWrapper (σ : Type) where
  gym_env : GymEnv σ
  env_state : σ
  behavior_name : String
  act_ratio : List ℚ
  obs_ratio : List ℚ
  behavior_specs : BehaviorSpec
  first_message : Bool
  g_action : Option GAction
  current_steps : DecisionSteps × TerminalSteps

/-- The branch of `__init__` that inspects the action space: the action
type, the action shape, and the action normalization factors, or `none`
for an unsupported space (which raises `UnityActionException`). -/
def actionMeta : GymSpace → Option (ActionType × (ℕ ⊕ List ℕ) × List ℚ)
  | GymSpace.box low high =>
      some (ActionType.continuous, Sum.inl high.length, boundRat low high)
  | GymSpace.discrete n =>
      some (ActionType.discrete, Sum.inr [n], [])
  | GymSpace.other => none

/-- `GymToUnityWrapper.__init__`: inspect the action space (continuous
`Box`, discrete, or rejected), inspect the observation space (must be a
`Box`), compute the normalization factors, build the behavior spec, and
initialize the mutable state: `_first_message = True`, `_g_action =
None`, and an empty current step pair.  `s0` is the initial state of the
wrapped gym environment. -/
def mkWrapper (env : GymEnv σ) (s0 : σ) (name : Option String) :
    Except PyErr (GymToUnityWrapper σ) :=
  let behavior_name := name.getD DEFAULT_BEHAVIOR_NAME
  match actionMeta env.action_space with
  | none => Except.error (PyErr.unityAction "Unknown action type")
  | some (action_type, action_shape, act_ratio) =>
    match env.observation_space with
    | GymSpace.box olow ohigh =>
        let spec : BehaviorSpec :=
          { observation_shapes := [[ohigh.length]], action_type, action_shape }
        Except.ok
          { gym_env := env
            env_state := s0
            behavior_name
            act_ratio
            obs_ratio := boundRat olow ohigh
            behavior_specs := spec
            first_message := true
            g_action := none
            current_steps := (DecisionSteps.empty spec, TerminalSteps.empty spec) }
    | _ => Except.error (PyErr.unityObservation "Unknown observation type")

/-- `GymToUnityWrapper.reset`: clear `_first_message`, restart the gym
environment, and publish a one-agent decision batch with the normalized
initial observation and reward 0, next to an empty terminal batch. -/
def GymToUnityWrapper.reset (w : GymToUnityWrapper σ) : GymToUnityWrapper σ :=
  let r := w.gym_env.resetFn w.env_state
  { w with
    first_message := false
    env_state := r.1
    current_steps :=
      ({ obs := [[arrDiv r.2 w.obs_ratio]]
         reward := [0]
         agent_id := [AGENT_ID]
         action_mask := none },
       TerminalSteps.empty w.behavior_specs) }

/-- `GymToUnityWrapper.step`: on the first message, delegate to `reset`;
otherwise apply the stored action to the gym environment and publish
either a one-agent decision batch (not done) or a one-agent terminal
batch while setting `_first_message` back (done). -/
def GymToUnityWrapper.step (w : GymToUnityWrapper σ) : GymToUnityWrapper σ :=
  if w.first_message then
    w.reset
  else
    let r := w.gym_env.stepFn w.env_state w.g_action
    let s2 := r.1
    let obs := r.2.1
    let rew := r.2.2.1
    let done := r.2.2.2.1
    let truncated := r.2.2.2.2
    if !done then
      { w with
        env_state := s2
        current_steps :=
          ({ obs := [[arrDiv obs w.obs_ratio]]
             reward := [rew]
             agent_id := [AGENT_ID]
             action_mask := none },
           TerminalSteps.empty w.behavior_specs) }
    else
      { w with
        env_state := s2
        first_message := true
        current_steps :=
          (DecisionSteps.empty w.behavior_specs,
           { obs := [[arrDiv obs w.obs_ratio]]
             reward := [rew]
             interrupted := [truncated]
             agent_id := [AGENT_ID] }) }

/-- `GymToUnityWrapper.set_actions`: assert the behavior name, no-op
when the decision batch is empty, raise a `UnityActionException` on a
shape mismatch against `(n_agents, action_size)`, and otherwise store
the pending action: the first category as an integer (discrete), or the
first row divided elementwise by the action normalization factors
(continuous). -/
def GymToUnityWrapper.set_actions (w : GymToUnityWrapper σ)
    (behavior_name : String) (action : NDArray) :
    Except PyErr (GymToUnityWrapper σ) :=
  if behavior_name ≠ w.behavior_name then
    Except.error PyErr.assertionError
  else
    let spec := w.behavior_specs
    let n_agents := w.current_steps.1.len
    if n_agents = 0 then
      Except.ok w
    else
      let expected_shape := [n_agents, spec.action_size]
      if action.shape ≠ expected_shape then
        Except.error (PyErr.unityAction
          (shapeMsg behavior_name expected_shape action.shape))
      else
        match w.gym_env.action_space with
        | GymSpace.discrete _ =>
            Except.ok { w with
              g_action := some (GAction.int (pyInt (action.data.headD 0))) }
        | GymSpace.box _ _ =>
            Except.ok { w with
              g_action := some (GAction.arr
                (arrDiv (action.data.take spec.action_size) w.act_ratio)) }
        | GymSpace.other =>
            Except.error (PyErr.unityAction "Unknown action type")

/-- `GymToUnityWrapper.set_action_for_agent`: assert the behavior name
and the agent id, raise a `UnityActionException` on a shape mismatch
against `(action_size,)`, and otherwise store the pending action with
the same discrete/continuous handling as `set_actions`.  There is no
check against the decision batch. -/
def GymToUnityWrapper.set_action_for_agent (w : GymToUnityWrapper σ)
    (behavior_name : String) (agent_id : ℤ) (action : NDArray) :
    Except PyErr (GymToUnityWrapper σ) :=
  if behavior_name ≠ w.behavior_name then
    Except.error PyErr.assertionError
  else if agent_id ≠ AGENT_ID then
    Except.error PyErr.assertionError
  else
    let spec := w.behavior_specs
    let expected_shape := [spec.action_size]
    if action.shape ≠ expected_shape then
      Except.error (PyErr.unityAction agentShapeMsg)
    else
      match w.gym_env.action_space with
      | GymSpace.discrete _ =>
          Except.ok { w with
            g_action := some (GAction.int (pyInt (action.data.headD 0))) }
      | GymSpace.box _ _ =>
          Except.ok { w with
            g_action := some (GAction.arr (arrDiv action.data w.act_ratio)) }
      | GymSpace.other =>
          Except.error (PyErr.unityAction "Unknown action type")

/-- `GymToUnityWrapper.get_steps`: assert the behavior name and return
the current step pair. -/
def GymToUnityWrapper.get_steps (w : GymToUnityWrapper σ)
    (behavior_name : String) :
    Except PyErr (DecisionSteps × TerminalSteps) :=
  if behavior_name ≠ w.behavior_name then
    Except.error PyErr.assertionError
  else
    Except.ok w.current_steps

/-- One external call to the adapter state machine: `step()` or
`reset()`. -/
inductive Call where
  | step
  | reset
deriving DecidableEq

/-- Apply one call to the adapter. -/
def applyCall (w : GymToUnityWrapper σ) : Call → GymToUnityWrapper σ
  | Call.step => w.step
  | Call.reset => w.reset

/-- Run a sequence of `step()`/`reset()` calls. -/
def runCalls (w : GymToUnityWrapper σ) : List Call → GymToUnityWrapper σ
  | [] => w
  | c :: cs => runCalls (applyCall w c) cs

/-- The central step-pair invariant: exactly one of the two batches
holds exactly one agent. -/
def pairOK (p : DecisionSteps × TerminalSteps) : Prop :=
  (p.1.len = 1 ∧ p.2.len = 0) ∨ (p.1.len = 0 ∧ p.2.len = 1)

/-! ### Concrete test environments

The recording environment mirrors the scenario of the spec: a continuous
action space with bounds [-2, 2] and size 1, an observation space with
bounds [0, 10] and size 1, a raw initial observation [5], and a state
that records the last action passed to `stepFn` (or `none` while no step
has run). -/

/-- State of the recording test environments: `none` while `stepFn` has
not run, `some a` once `stepFn` last received the action `a`. -/
abbrev RecSt := Option (Option GAction)

/-- The recording continuous environment of the spec scenario. -/
def recEnv : GymEnv RecSt :=
  { action_space := GymSpace.box [-2] [2]
    observation_space := GymSpace.box [0] [10]
    resetFn := fun s => (s, [5])
    stepFn := fun _ a => (some a, [5], 0, false, false) }

/-- The behavior spec the wrapper computes for `recEnv`. -/
def recSpec : BehaviorSpec :=
  { observation_shapes := [[1]]
    action_type := ActionType.continuous
    action_shape := Sum.inl 1 }

/-- The wrapper state right after a successful construction over
`recEnv` with the default behavior name. -/
def recW : GymToUnityWrapper RecSt :=
  { gym_env := recEnv
    env_state := none
    behavior_name := "gym_behavior_name"
    act_ratio := [2]
    obs_ratio := [10]
    behavior_specs := recSpec
    first_message := true
    g_action := none
    current_steps := (DecisionSteps.empty recSpec, TerminalSteps.empty recSpec) }

/-- A recording environment with a discrete action space of 4
categories. -/
def discEnv : GymEnv RecSt :=
  { action_space := GymSpace.discrete 4
    observation_space := GymSpace.box [0] [10]
    resetFn := fun s => (s, [5])
    stepFn := fun _ a => (some a, [5], 0, false, false) }

/-- The behavior spec the wrapper computes for `discEnv`. -/
def discSpec : BehaviorSpec :=
  { observation_shapes := [[1]]
    action_type := ActionType.discrete
    action_shape := Sum.inr [4] }

/-- The wrapper state right after a successful construction over
`discEnv` with the default behavior name. -/
def discW : GymToUnityWrapper RecSt :=
  { gym_env := discEnv
    env_state := none
    behavior_name := "gym_behavior_name"
    act_ratio := []
    obs_ratio := [10]
    behavior_specs := discSpec
    first_message := true
    g_action := none
    current_steps := (DecisionSteps.empty discSpec, TerminalSteps.empty discSpec) }

/-- A recording environment whose observation space is the degenerate
box with lower and upper bound 0, so that the observation normalization
factor is 0 without being clamped. -/
def zeroEnv : GymEnv RecSt :=
  { action_space := GymSpace.box [-2] [2]
    observation_space := GymSpace.box [0] [0]
    resetFn := fun s => (s, [5])
    stepFn := fun _ a => (some a, [5], 0, false, false) }

/-- The wrapper state right after a successful construction over
`zeroEnv` with the default behavior name. -/
def zeroW : GymToUnityWrapper RecSt :=
  { gym_env := zeroEnv
    env_state := none
    behavior_name := "gym_behavior_name"
    act_ratio := [2]
    obs_ratio := [0]
    behavior_specs := recSpec
    first_message := true
    g_action := none
    current_steps := (DecisionSteps.empty recSpec, TerminalSteps.empty recSpec) }

/-! ### Helper lemmas -/

theorem reset_pairOK (w : GymToUnityWrapper σ) :
    pairOK (w.reset).current_steps := by
  left
  simp [GymToUnityWrapper.reset, pairOK, DecisionSteps.len, TerminalSteps.len,
    TerminalSteps.empty]

theorem step_pairOK (w : GymToUnityWrapper σ) :
    pairOK (w.step).current_steps := by
  by_cases h : w.first_message
  · simpa [GymToUnityWrapper.step, h] using reset_pairOK w
  · simp only [GymToUnityWrapper.step, h, if_false]
    by_cases hd : (w.gym_env.stepFn w.env_state w.g_action).2.2.2.1
    · right
      simp [hd, pairOK, DecisionSteps.len, TerminalSteps.len, DecisionSteps.empty]
    · left
      simp [hd, pairOK, DecisionSteps.len, TerminalSteps.len, TerminalSteps.empty]

theorem applyCall_pairOK (w : GymToUnityWrapper σ) (c : Call) :
    pairOK (applyCall w c).current_steps := by
  cases c
  · exact step_pairOK w
  · exact reset_pairOK w

theorem runCalls_pairOK (cs : List Call) (w : GymToUnityWrapper σ)
    (h : cs ≠ []) : pairOK (runCalls w cs).current_steps := by
  induction cs generalizing w with
  | nil => exact absurd rfl h
  | cons c cs ih =>
    cases cs with
    | nil => exact applyCall_pairOK w c
    | cons c2 cs2 => exact ih (applyCall w c) (by simp)

theorem reset_behavior_name (w : GymToUnityWrapper σ) :
    (w.reset).behavior_name = w.behavior_name := rfl

theorem step_behavior_name (w : GymToUnityWrapper σ) :
    (w.step).behavior_name = w.behavior_name := by
  by_cases h : w.first_message
  · simp [GymToUnityWrapper.step, h, GymToUnityWrapper.reset]
  · by_cases hd : (w.gym_env.stepFn w.env_state w.g_action).2.2.2.1 <;>
      simp [GymToUnityWrapper.step, h, hd]

theorem applyCall_behavior_name (w : GymToUnityWrapper σ) (c : Call) :
    (applyCall w c).behavior_name = w.behavior_name := by
  cases c
  · exact step_behavior_name w
  · exact reset_behavior_name w

theorem runCalls_behavior_name (cs : List Call) (w : GymToUnityWrapper σ) :
    (runCalls w cs).behavior_name = w.behavior_name := by
  induction cs generalizing w with
  | nil => rfl
  | cons c cs ih => rw [runCalls, ih, applyCall_behavior_name]

theorem get_steps_self (w : GymToUnityWrapper σ) :
    w.get_steps w.behavior_name = Except.ok w.current_steps := by
  simp [GymToUnityWrapper.get_steps]

theorem mkWrapper_inv (env : GymEnv σ) (s0 : σ) (nm : Option String)
    (w : GymToUnityWrapper σ) (h : mkWrapper env s0 nm = Except.ok w) :
    ∃ aty ash ar olow ohigh,
      actionMeta env.action_space = some (aty, ash, ar) ∧
        env.observation_space = GymSpace.box olow ohigh ∧
        w = { gym_env := env
              env_state := s0
              behavior_name := nm.getD DEFAULT_BEHAVIOR_NAME
              act_ratio := ar
              obs_ratio := boundRat olow ohigh
              behavior_specs :=
                { observation_shapes := [[ohigh.length]]
                  action_type := aty
                  action_shape := ash }
              first_message := true
              g_action := none
              current_steps :=
                (DecisionSteps.empty
                  { observation_shapes := [[ohigh.length]]
                    action_type := aty
                    action_shape := ash },
                 TerminalSteps.empty
                  { observation_shapes := [[ohigh.length]]
                    action_type := aty
                    action_shape := ash }) } := by
  unfold mkWrapper at h
  cases hmeta : actionMeta env.action_space with
  | none => rw [hmeta] at h; simp at h
  | some meta =>
    obtain ⟨aty, ash, ar⟩ := meta
    rw [hmeta] at h
    cases hobs : env.observation_space with
    | box olow ohigh =>
        rw [hobs] at h
        simp only [Except.ok.injEq] at h
        exact ⟨aty, ash, ar, olow, ohigh, rfl, rfl, h.symm⟩
    | discrete n => rw [hobs] at h; simp at h
    | other => rw [hobs] at h; simp at h

/-- C1: after a successful construction both batches of the current step
pair are empty; once any sequence of `step()`/`reset()` calls has run
(the first `step()` performs the implicit first reset), the pair
returned by `get_steps` satisfies exactly one of: the decision batch has
one agent and the terminal batch is empty, or the decision batch is
empty and the terminal batch has one agent. -/
theorem constructed_stepPair_invariant (env : GymEnv σ) (s0 : σ)
    (nm : Option String) (w : GymToUnityWrapper σ)
    (h : mkWrapper env s0 nm = Except.ok w) :
    w.current_steps.1.len = 0 ∧ w.current_steps.2.len = 0 ∧
      ∀ cs : List Call, cs ≠ [] →
        (runCalls w cs).get_steps w.behavior_name =
            Except.ok (runCalls w cs).current_steps ∧
          pairOK (runCalls w cs).current_steps := by
  obtain ⟨aty, ash, ar, olow, ohigh, hmeta, hobs, hw⟩ := mkWrapper_inv env s0 nm w h
  subst hw
  refine ⟨rfl, rfl, fun cs hcs => ⟨?_, runCalls_pairOK cs _ hcs⟩⟩
  simp [GymToUnityWrapper.get_steps, runCalls_behavior_name]

/-- Witness for C1: the recording environment, with the single call
sequence `[step]`. -/
theorem constructed_stepPair_invariant_witness :
    recW.current_steps.1.len = 0 ∧ recW.current_steps.2.len = 0 ∧
      ((runCalls recW [Call.step]).get_steps recW.behavior_name =
          Except.ok (runCalls recW [Call.step]).current_steps ∧
        pairOK (runCalls recW [Call.step]).current_steps) :=
  ⟨(constructed_stepPair_invariant recEnv none none recW (by rfl)).1,
   (constructed_stepPair_invariant recEnv none none recW (by rfl)).2.1,
   (constructed_stepPair_invariant recEnv none none recW (by rfl)).2.2
     [Call.step] (by simp)⟩

/-- C2: in the FRESH state (the `_first_message` flag set, as right
after construction), `step()` is the same state transformation as
`reset()`: it restarts the underlying environment and yields a one-agent
decision batch with an empty terminal batch, rather than applying a
pending action.  In addition, a non-fresh step on which the environment
reports done sets the flag again, so the FRESH state is also reached
right after a terminal step. -/
theorem step_fresh_eq_reset (w : GymToUnityWrapper σ)
    (h : w.first_message = true) :
    (w.step = w.reset ∧ (w.step).current_steps.1.len = 1 ∧
        (w.step).current_steps.2.len = 0) ∧
      ∀ w2 : GymToUnityWrapper σ, w2.first_message = false →
        (w2.gym_env.stepFn w2.env_state w2.g_action).2.2.2.1 = true →
        (w2.step).first_message = true := by
  have hs : w.step = w.reset := by simp [GymToUnityWrapper.step, h]
  refine ⟨⟨hs, ?_, ?_⟩, fun w2 h2 hd => ?_⟩
  · rw [hs]
    simp [GymToUnityWrapper.reset, DecisionSteps.len]
  · rw [hs]
    simp [GymToUnityWrapper.reset, TerminalSteps.len, TerminalSteps.empty]
  · simp [GymToUnityWrapper.step, h2, hd]

/-- Witness for C2: the freshly constructed wrapper over the recording
environment. -/
theorem step_fresh_eq_reset_witness :
    (recW.step = recW.reset ∧ (recW.step).current_steps.1.len = 1 ∧
        (recW.step).current_steps.2.len = 0) ∧
      ∀ w2 : GymToUnityWrapper RecSt, w2.first_message = false →
        (w2.gym_env.stepFn w2.env_state w2.g_action).2.2.2.1 = true →
        (w2.step).first_message = true :=
  step_fresh_eq_reset recW rfl

/-- C3: a successful construction over a continuous (`Box`) action
space yields a behavior spec whose `action_size` is the product of the
action space shape dimensions (the length of the flat bound vectors)
and whose `is_action_continuous()` is true; over a discrete space of `n`
categories it yields `action_size = n` and `is_action_continuous()`
false. -/
theorem behavior_spec_of_construction (env : GymEnv σ) (s0 : σ)
    (nm : Option String) (w : GymToUnityWrapper σ)
    (h : mkWrapper env s0 nm = Except.ok w) :
    (∀ low high, env.action_space = GymSpace.box low high →
        w.behavior_specs.action_size = high.length ∧
          w.behavior_specs.is_action_continuous = true) ∧
      (∀ n, env.action_space = GymSpace.discrete n →
        w.behavior_specs.action_size = n ∧
          w.behavior_specs.is_action_continuous = false) := by
  obtain ⟨aty, ash, ar, olow, ohigh, hmeta, hobs, hw⟩ := mkWrapper_inv env s0 nm w h
  subst hw
  constructor
  · rintro low high hsp
    rw [hsp] at hmeta
    simp only [actionMeta, Option.some.injEq, Prod.mk.injEq] at hmeta
    obtain ⟨h1, h2, h3⟩ := hmeta
    subst h1
    subst h2
    simp [BehaviorSpec.action_size, BehaviorSpec.is_action_continuous]
  · rintro n hsp
    rw [hsp] at hmeta
    simp only [actionMeta, Option.some.injEq, Prod.mk.injEq] at hmeta
    obtain ⟨h1, h2, h3⟩ := hmeta
    subst h1
    subst h2
    simp [BehaviorSpec.action_size, BehaviorSpec.is_action_continuous]

/-- Witness for C3: the continuous recording environment (action bound
vectors of length 1) and the discrete environment with 4 categories. -/
theorem behavior_spec_of_construction_witness :
    (recW.behavior_specs.action_size = 1 ∧
        recW.behavior_specs.is_action_continuous = true) ∧
      (discW.behavior_specs.action_size = 4 ∧
        discW.behavior_specs.is_action_continuous = false) :=
  ⟨(behavior_spec_of_construction recEnv none none recW (by rfl)).1
      [-2] [2] rfl,
   (behavior_spec_of_construction discEnv none none discW (by rfl)).2
      4 rfl⟩

/-- C4: when exactly one agent awaits a decision, `set_actions` with the
matching behavior name and an action whose shape differs from
`(1, action_size)` raises a `UnityActionException` whose message is
built from the behavior name, the expected shape `(1, action_size)`, and
the received shape, and yields no updated state, so no pending action is
stored. -/
theorem set_actions_shape_mismatch (w : GymToUnityWrapper σ) (a : NDArray)
    (h1 : w.current_steps.1.len = 1)
    (h2 : a.shape ≠ [1, w.behavior_specs.action_size]) :
    w.set_actions w.behavior_name a =
        Except.error (PyErr.unityAction
          (shapeMsg w.behavior_name [1, w.behavior_specs.action_size] a.shape)) ∧
      ∀ w2, w.set_actions w.behavior_name a ≠ Except.ok w2 := by
  have he : w.set_actions w.behavior_name a =
      Except.error (PyErr.unityAction
        (shapeMsg w.behavior_name [1, w.behavior_specs.action_size] a.shape)) := by
    simp [GymToUnityWrapper.set_actions, h1, h2]
  exact ⟨he, fun w2 hk => by rw [he] at hk; exact Except.noConfusion hk⟩

/-- Witness for C4: the wrapper over the recording environment right
after `reset()` (one agent pending), with a batch of shape `(2, 1)`
against the expected `(1, 1)`. -/
theorem set_actions_shape_mismatch_witness :
    (recW.reset).set_actions (recW.reset).behavior_name ⟨[2, 1], [1, 1]⟩ =
        Except.error (PyErr.unityAction
          (shapeMsg (recW.reset).behavior_name
            [1, (recW.reset).behavior_specs.action_size] [2, 1])) ∧
      ∀ w2, (recW.reset).set_actions (recW.reset).behavior_name
          ⟨[2, 1], [1, 1]⟩ ≠ Except.ok w2 :=
  set_actions_shape_mismatch (recW.reset) ⟨[2, 1], [1, 1]⟩ (by rfl) (by decide)

/-- C5: the continuous scenario of the spec.  Over `recEnv` (action
bounds [-2, 2] of size 1, observation bounds [0, 10] of size 1, raw
initial observation [5]): construction computes observation factors [10]
and action factors [2]; `reset()` publishes the normalized observation
[0.5]; `set_actions(name, [[1.0]])` stores the pending action [0.5] (the
first row divided elementwise by the action factors); and the next
`step()` passes exactly that 0.5 action to the underlying environment,
whose recording state retains it. -/
theorem continuous_scenario :
    mkWrapper recEnv none none = Except.ok recW ∧
      recW.obs_ratio = [10] ∧ recW.act_ratio = [2] ∧
      (recW.reset).current_steps.1.obs = [[[(1 / 2 : ℚ)]]] ∧
      ((recW.reset).set_actions "gym_behavior_name" ⟨[1, 1], [1]⟩).map
          (fun w2 => w2.g_action) =
        Except.ok (some (GAction.arr [(1 / 2 : ℚ)])) ∧
      ((recW.reset).set_actions "gym_behavior_name" ⟨[1, 1], [1]⟩).map
          (fun w2 => (w2.step).env_state) =
        Except.ok (some (some (GAction.arr [(1 / 2 : ℚ)]))) := by
  refine ⟨by rfl, rfl, rfl, ?_, ?_, ?_⟩
  · norm_num [GymToUnityWrapper.reset, recW, recEnv, arrDiv]
  · norm_num [GymToUnityWrapper.set_actions, GymToUnityWrapper.reset, recW, recEnv,
      recSpec, arrDiv, DecisionSteps.len, BehaviorSpec.action_size, Except.map]
  · norm_num [GymToUnityWrapper.set_actions, GymToUnityWrapper.step,
      GymToUnityWrapper.reset, recW, recEnv, recSpec, arrDiv, DecisionSteps.len,
      BehaviorSpec.action_size, Except.map]

/-- C6: after `reset()` the decision batch contains exactly the one
fixed agent id with reward 0 and the underlying initial observation
divided elementwise by the observation normalization factors, and the
terminal batch is empty. -/
theorem reset_postcondition (w : GymToUnityWrapper σ) :
    (w.reset).current_steps.1.len = 1 ∧
      (w.reset).current_steps.1.agent_id = [AGENT_ID] ∧
      (w.reset).current_steps.2.len = 0 ∧
      (w.reset).current_steps.1.reward = [0] ∧
      (w.reset).current_steps.1.obs =
        [[arrDiv (w.gym_env.resetFn w.env_state).2 w.obs_ratio]] := by
  refine ⟨rfl, rfl, rfl, rfl, rfl⟩

/-- C7: when the decision batch is empty, `set_actions` with the
matching behavior name and any action array is a silent no-op: it
returns the state unchanged (in particular the pending action is
unchanged) and raises nothing. -/
theorem set_actions_empty_noop (w : GymToUnityWrapper σ) (a : NDArray)
    (h : w.current_steps.1.len = 0) :
    w.set_actions w.behavior_name a = Except.ok w := by
  simp [GymToUnityWrapper.set_actions, h]

/-- Witness for C7: the freshly constructed wrapper over the recording
environment, whose decision batch is empty. -/
theorem set_actions_empty_noop_witness :
    recW.set_actions recW.behavior_name ⟨[1, 1], [7]⟩ = Except.ok recW :=
  set_actions_empty_noop recW ⟨[1, 1], [7]⟩ rfl

theorem getD_zipWith_mul_div (a b : List ℚ) (i : ℕ) (ha : i < a.length)
    (hb : i < b.length) (hnz : b.getD i 0 ≠ 0) :
    (List.zipWith (fun x y => x * y) (arrDiv a b) b).getD i 0 = a.getD i 0 := by
  induction a generalizing b i with
  | nil => simp at ha
  | cons x xs ih =>
    cases b with
    | nil => simp at hb
    | cons y ys =>
      cases i with
      | zero =>
          simp only [List.getD_cons_zero] at hnz ⊢
          simp only [arrDiv, List.zipWith, List.getD_cons_zero]
          exact div_mul_cancel₀ x hnz
      | succ j =>
          simp only [List.getD_cons_succ] at hnz ⊢
          simp only [arrDiv, List.zipWith, List.getD_cons_succ]
          exact ih ys j (by simpa using ha) (by simpa using hb) hnz

/-- C8 counterexample: over `zeroEnv`, whose observation space is the
degenerate box [0, 0], the computed observation normalization factor is
0, which is not clamped (it does not exceed the sentinel threshold), yet
dividing the raw observation 5 by it and multiplying back by it yields
0, not 5, over the rationals — the claimed round trip fails for a
dimension whose factor is 0. -/
theorem roundtrip_zero_entry_cex :
    mkWrapper zeroEnv none none = Except.ok zeroW ∧
      zeroW.obs_ratio = [0] ∧
      ¬ bigThreshold < (0 : ℚ) ∧
      (List.zipWith (fun x y => x * y) (arrDiv [5] zeroW.obs_ratio)
          zeroW.obs_ratio).getD 0 0 ≠ ([(5 : ℚ)]).getD 0 0 := by
  refine ⟨by rfl, rfl, by norm_num [bigThreshold], ?_⟩
  norm_num [zeroW, arrDiv]

/-- C8 (amended): for every raw observation vector and every dimension
whose normalization factor entry is nonzero (in particular every entry
that was not clamped to 1 and is not 0), multiplying the normalized
observation (raw divided elementwise by the factors, as `step`/`reset`
compute it) by the same factor recovers the raw entry exactly over the
rationals. -/
theorem roundtrip_nonzero_entry (w : GymToUnityWrapper σ) (raw : List ℚ)
    (i : ℕ) (hi : i < raw.length) (hr : i < w.obs_ratio.length)
    (hnz : w.obs_ratio.getD i 0 ≠ 0) :
    (List.zipWith (fun x y => x * y) (arrDiv raw w.obs_ratio)
        w.obs_ratio).getD i 0 = raw.getD i 0 :=
  getD_zipWith_mul_div raw w.obs_ratio i hi hr hnz

/-- Witness for the amended C8: the recording environment with factor
10 and raw observation [5]. -/
theorem roundtrip_nonzero_entry_witness :
    (List.zipWith (fun x y => x * y) (arrDiv [5] recW.obs_ratio)
        recW.obs_ratio).getD 0 0 = ([(5 : ℚ)]).getD 0 0 :=
  roundtrip_nonzero_entry recW [5] 0 (by decide) (by decide)
    (by norm_num [recW])

/-- C9: `set_action_for_agent` with the matching behavior name, the
fixed agent id, and an action of shape `(action_size,)` stores the
pending action for every wrapper state — the conclusion holds with no
condition on the current step pair, so in particular when the decision
batch is empty (between a terminal step and the next reset), unlike
`set_actions`, which returns without storing in that case. -/
theorem set_action_for_agent_ignores_batch (w : GymToUnityWrapper σ)
    (a : NDArray) (hshape : a.shape = [w.behavior_specs.action_size]) :
    (∀ low high, w.gym_env.action_space = GymSpace.box low high →
        w.set_action_for_agent w.behavior_name AGENT_ID a =
          Except.ok { w with
            g_action := some (GAction.arr (arrDiv a.data w.act_ratio)) }) ∧
      (∀ n, w.gym_env.action_space = GymSpace.discrete n →
        w.set_action_for_agent w.behavior_name AGENT_ID a =
          Except.ok { w with
            g_action := some (GAction.int (pyInt (a.data.headD 0))) }) := by
  constructor
  · rintro low high hsp
    simp [GymToUnityWrapper.set_action_for_agent, hshape, hsp]
  · rintro n hsp
    simp [GymToUnityWrapper.set_action_for_agent, hshape, hsp]

/-- Witness for C9: the freshly constructed wrapper over the recording
environment, whose decision batch is empty, still stores the pending
action 3 / 2. -/
theorem set_action_for_agent_ignores_batch_witness :
    recW.set_action_for_agent recW.behavior_name AGENT_ID ⟨[1], [3]⟩ =
      Except.ok { recW with
        g_action := some (GAction.arr (arrDiv [3] recW.act_ratio)) } :=
  (set_action_for_agent_ignores_batch recW ⟨[1], [3]⟩ (by rfl)).1
    [-2] [2] rfl

/-- C10: `reset()` leaves the pending action `_g_action` unchanged (it
only clears the flag, restarts the environment, and rebuilds the step
pair); a `step()` right after an explicit `reset()` therefore passes the
previously stored pending action to the underlying `step` — concretely,
after construction (where no action was ever submitted) the underlying
environment receives `None`. -/
theorem reset_preserves_pending_action (w : GymToUnityWrapper σ) :
    (w.reset).g_action = w.g_action ∧
      (w.reset).first_message = false ∧
      ((w.reset).step).env_state =
        (w.gym_env.stepFn (w.reset).env_state w.g_action).1 ∧
      (mkWrapper recEnv none none).map
          (fun w0 => ((w0.reset).step).env_state) = Except.ok (some none) := by
  refine ⟨rfl, rfl, ?_, ?_⟩
  · simp only [GymToUnityWrapper.step, GymToUnityWrapper.reset]
    norm_num
    split <;> rfl
  · rfl
